import Mathlib

/-!
Verification development for the WikiGraph embeddings service
(`src/python/main.py`), a FastAPI wrapper around a sentence-transformers
model exposing `/embed`, `/embed/batch`, `/similarity`, `/similarity/batch`,
`/health` and `/`.

The embedding model itself is an external dependency; it is represented here
as an abstract handle (`Model`) whose contract is taken from the spec's data
model. Everything else — request validation bounds, the cosine-similarity
computation performed by `sklearn.metrics.pairwise.cosine_similarity`, the
argsort-based ranking of `find_similar`, and the shapes of the responses —
is translated directly from the source.
-/

namespace WikiGraph

/-! ### Dot products and the sklearn cosine similarity -/

/-- Dot product of two float vectors, modelled over `ℝ`: sum of pairwise
products (extra trailing entries of the longer vector are ignored, as in a
componentwise product of equal-length rows). -/
def dotp (a b : List ℝ) : ℝ := (List.zipWith (fun x y => x * y) a b).sum

@[simp] theorem dotp_nil_left (b : List ℝ) : dotp [] b = 0 := rfl

@[simp] theorem dotp_nil_right (a : List ℝ) : dotp a [] = 0 := by
  cases a <;> rfl

@[simp] theorem dotp_cons (x y : ℝ) (a b : List ℝ) :
    dotp (x :: a) (y :: b) = x * y + dotp a b := rfl

theorem dotp_comm (a b : List ℝ) : dotp a b = dotp b a := by
  induction a generalizing b with
  | nil => cases b <;> simp
  | cons x a ih =>
    cases b with
    | nil => simp
    | cons y b => simp [ih, mul_comm]

theorem dotp_self_nonneg (a : List ℝ) : 0 ≤ dotp a a := by
  induction a with
  | nil => simp
  | cons x a ih => simpa using add_nonneg (mul_self_nonneg x) ih

theorem dotp_eq_zero_of_self_eq_zero {a : List ℝ} (h : dotp a a = 0)
    (b : List ℝ) : dotp a b = 0 := by
  induction a generalizing b with
  | nil => simp
  | cons x a ih =>
    have hx2 : 0 ≤ x * x := mul_self_nonneg x
    have ha : 0 ≤ dotp a a := dotp_self_nonneg a
    have hcons : x * x + dotp a a = 0 := by simpa using h
    have hx : x = 0 := mul_self_eq_zero.mp (by linarith)
    have ha0 : dotp a a = 0 := by linarith
    cases b with
    | nil => simp
    | cons y b => simp [hx, ih ha0]

theorem dotp_map_div (a b : List ℝ) (x y : ℝ) :
    dotp (a.map fun u => u / x) (b.map fun u => u / y) = dotp a b / (x * y) := by
  induction a generalizing b with
  | nil => simp
  | cons u a ih =>
    cases b with
    | nil => simp
    | cons w b =>
      simp only [List.map_cons, dotp_cons, ih, div_mul_div_comm, add_div]

/-- L2 norm of a vector: square root of the sum of squares. -/
noncomputable def l2norm (v : List ℝ) : ℝ := Real.sqrt (dotp v v)

theorem l2norm_nonneg (v : List ℝ) : 0 ≤ l2norm v := Real.sqrt_nonneg _

theorem l2norm_eq_zero_iff (v : List ℝ) : l2norm v = 0 ↔ dotp v v = 0 :=
  Real.sqrt_eq_zero (dotp_self_nonneg v)

/-- Modelled from the spec: row normalization as performed inside
`sklearn.metrics.pairwise.cosine_similarity` (external library code, not part
of this repository). Each row is divided by its L2 norm, with zero norms
replaced by 1 so that zero vectors pass through unchanged — this realises the
spec's "undefined (convention: 0) if either vector is zero-norm". -/
noncomputable def sklearnNormalize (v : List ℝ) : List ℝ :=
  v.map fun x => x / (if l2norm v = 0 then 1 else l2norm v)

/-- Modelled from the spec: `sklearn.metrics.pairwise.cosine_similarity` on a
pair of single rows — normalize both rows, then take their dot product. -/
noncomputable def cosineSim (a b : List ℝ) : ℝ :=
  dotp (sklearnNormalize a) (sklearnNormalize b)

/-- The spec's own formula for cosine similarity: `dot(a,b)/(|a||b|)`, with the
convention that the score is 0 when either vector has zero norm. Stated from
the spec's words, to be compared with `cosineSim`. -/
noncomputable def cosineSpecFormula (a b : List ℝ) : ℝ :=
  if l2norm a = 0 ∨ l2norm b = 0 then 0 else dotp a b / (l2norm a * l2norm b)

theorem cosineSim_eq_div (a b : List ℝ) :
    cosineSim a b = dotp a b /
      ((if l2norm a = 0 then 1 else l2norm a) *
        (if l2norm b = 0 then 1 else l2norm b)) := by
  unfold cosineSim sklearnNormalize
  exact dotp_map_div a b _ _

theorem cosineSim_eq_specFormula (a b : List ℝ) :
    cosineSim a b = cosineSpecFormula a b := by
  unfold cosineSpecFormula
  by_cases ha : l2norm a = 0
  · have h0 : dotp a b = 0 :=
      dotp_eq_zero_of_self_eq_zero ((l2norm_eq_zero_iff a).mp ha) b
    rw [cosineSim_eq_div, h0, if_pos (Or.inl ha), zero_div]
  · by_cases hb : l2norm b = 0
    · have h0 : dotp b a = 0 :=
        dotp_eq_zero_of_self_eq_zero ((l2norm_eq_zero_iff b).mp hb) a
      rw [cosineSim_eq_div, dotp_comm, h0, if_pos (Or.inr hb), zero_div]
    · rw [cosineSim_eq_div, if_neg ha, if_neg hb,
        if_neg (by push_neg; exact ⟨ha, hb⟩)]

theorem cosineSim_comm (a b : List ℝ) : cosineSim a b = cosineSim b a := by
  unfold cosineSim
  exact dotp_comm _ _

theorem cosineSim_zero_of_left (a b : List ℝ) (ha : l2norm a = 0) :
    cosineSim a b = 0 := by
  rw [cosineSim_eq_specFormula, cosineSpecFormula, if_pos (Or.inl ha)]

theorem cosineSim_zero_of_right (a b : List ℝ) (hb : l2norm b = 0) :
    cosineSim a b = 0 := by
  rw [cosineSim_eq_specFormula, cosineSpecFormula, if_pos (Or.inr hb)]

/-! ### Argsort, modelling `np.argsort` -/

section Argsort

variable {α : Type} [LinearOrder α] [Inhabited α]

/-- Key lookup for `argsort`: the value at index `i` (out-of-range indices,
which never occur, read the default element). -/
def akey (v : List α) (i : ℕ) : α := v.getD i default

/-- Comparison used to model `np.argsort`: index `i` comes before index `j`
when its value is smaller, with ties ordered by index ascending. This is the
specification of a stable ascending argsort; see the caveat on `argsort` for
where this matches numpy. -/
def argsortRel (v : List α) (i j : ℕ) : Prop :=
  akey v i < akey v j ∨ (akey v i = akey v j ∧ i ≤ j)

instance argsortRelDecidable (v : List α) : DecidableRel (argsortRel v) :=
  fun i j => by unfold argsortRel; infer_instance

instance argsortRelTotal (v : List α) : IsTotal ℕ (argsortRel v) := by
  constructor
  intro i j
  rcases lt_trichotomy (akey v i) (akey v j) with h | h | h
  · exact Or.inl (Or.inl h)
  · rcases Nat.le_total i j with hij | hij
    · exact Or.inl (Or.inr ⟨h, hij⟩)
    · exact Or.inr (Or.inr ⟨h.symm, hij⟩)
  · exact Or.inr (Or.inl h)

instance argsortRelTrans (v : List α) : IsTrans ℕ (argsortRel v) := by
  constructor
  intro i j k hij hjk
  rcases hij with h₁ | ⟨e₁, le₁⟩
  · rcases hjk with h₂ | ⟨e₂, _⟩
    · exact Or.inl (h₁.trans h₂)
    · exact Or.inl (e₂ ▸ h₁)
  · rcases hjk with h₂ | ⟨e₂, le₂⟩
    · exact Or.inl (e₁ ▸ h₂)
    · exact Or.inr ⟨e₁.trans e₂, le₁.trans le₂⟩

/-- Model of `np.argsort(v)`: the indices `0, …, len v - 1` sorted ascending
by value, realised as a stable insertion sort. Caveat: numpy's default
`kind='quicksort'` (introsort) is documented as not stable, so the tie order
this model fixes is only guaranteed by numpy on small arrays, where its
introsort degenerates to a plain (stable) insertion sort — in particular on a
two-element array. Results that do not depend on tie order (sortedness by
value, being a permutation of the index range) hold for any correct argsort
and are unaffected; results about the order of equal values are only stated
in the two-candidate regime, where the model provably matches numpy. -/
def argsort (v : List α) : List ℕ :=
  List.insertionSort (argsortRel v) (List.range v.length)

theorem argsort_perm (v : List α) : (argsort v).Perm (List.range v.length) :=
  List.perm_insertionSort _ _

theorem argsort_length (v : List α) : (argsort v).length = v.length := by
  simpa using (argsort_perm v).length_eq

theorem argsort_nodup (v : List α) : (argsort v).Nodup :=
  ((argsort_perm v).nodup_iff).mpr (List.nodup_range _)

theorem argsort_mem {v : List α} {i : ℕ} (h : i ∈ argsort v) : i < v.length := by
  have := (argsort_perm v).mem_iff.mp h
  simpa using this

theorem argsort_sorted (v : List α) : (argsort v).Pairwise (argsortRel v) :=
  List.sorted_insertionSort _ _

/-- Python slicing `l[:k]` where `k` may be `None` (numpy accepts `None` as
"no bound"): `None` keeps the whole list, an integer keeps the first `k`. -/
def pySlice (k : Option ℕ) (l : List β) : List β :=
  match k with
  | none => l
  | some k => l.take k

/-- The index list `np.argsort(v)[::-1][:k]` computed by `find_similar`. -/
def rankedIdx (v : List α) (k : Option ℕ) : List ℕ :=
  pySlice k (argsort v).reverse

theorem rankedIdx_sublist (v : List α) (k : Option ℕ) :
    (rankedIdx v k).Sublist (argsort v).reverse := by
  cases k with
  | none => exact List.Sublist.refl _
  | some k => exact List.take_sublist _ _

theorem rankedIdx_pairwise (v : List α) (k : Option ℕ) :
    (rankedIdx v k).Pairwise (fun i j => argsortRel v j i) :=
  List.Pairwise.sublist (rankedIdx_sublist v k)
    (List.pairwise_reverse.mpr (argsort_sorted v))

theorem rankedIdx_nodup (v : List α) (k : Option ℕ) :
    (rankedIdx v k).Nodup :=
  ((rankedIdx_sublist v k).nodup)
    (List.nodup_reverse.mpr (argsort_nodup v))

theorem rankedIdx_mem {v : List α} {k : Option ℕ} {i : ℕ}
    (h : i ∈ rankedIdx v k) : i < v.length :=
  argsort_mem (List.mem_reverse.mp ((rankedIdx_sublist v k).subset h))

theorem rankedIdx_length_none (v : List α) :
    (rankedIdx v none).length = v.length := by
  simp [rankedIdx, pySlice, argsort_length]

theorem rankedIdx_length_some (v : List α) (k : ℕ) :
    (rankedIdx v (some k)).length = min k v.length := by
  simp [rankedIdx, pySlice, argsort_length]

theorem map_pySlice (k : Option ℕ) (l : List β) (f : β → γ) :
    (pySlice k l).map f = pySlice k (l.map f) := by
  cases k <;> simp [pySlice, List.map_take]

/-- On a two-element array with equal values the ascending argsort returns
`[0, 1]`. Here the stable model provably matches numpy: on an array this
small numpy's introsort is a plain insertion sort. -/
theorem argsort_pair_tie (v : List α) (hlen : v.length = 2)
    (htie : v.getD 0 default = v.getD 1 default) : argsort v = [0, 1] := by
  rw [argsort, hlen]
  have h2 : List.range 2 = [0, 1] := rfl
  rw [h2]
  simp only [List.insertionSort, List.orderedInsert]
  rw [if_pos (show argsortRel v 0 1 from Or.inr ⟨htie, by norm_num⟩)]

end Argsort

/-! ### Request validation (pydantic `Field` constraints) -/

/-- Constraint on a single text field (`EmbedRequest.text`,
`SimilarityRequest.text1`/`text2`, `SimilarityBatchRequest.query`):
`min_length=1, max_length=10000`, counting characters as Python `len` does. -/
def validText (t : String) : Prop := 1 ≤ t.length ∧ t.length ≤ 10000

instance validTextDecidable (t : String) : Decidable (validText t) := by
  unfold validText; infer_instance

/-- Constraint on `EmbedBatchRequest.texts`: `min_items=1, max_items=100`.
Note there is no per-item constraint on the strings themselves. -/
def validBatchTexts (ts : List String) : Prop := 1 ≤ ts.length ∧ ts.length ≤ 100

instance validBatchTextsDecidable (ts : List String) :
    Decidable (validBatchTexts ts) := by
  unfold validBatchTexts; infer_instance

/-- Constraint on `SimilarityBatchRequest.candidates`: `min_items=1,
max_items=1000`, again with no per-item constraint. -/
def validCandidates (cs : List String) : Prop := 1 ≤ cs.length ∧ cs.length ≤ 1000

instance validCandidatesDecidable (cs : List String) :
    Decidable (validCandidates cs) := by
  unfold validCandidates; infer_instance

/-- Constraint on `SimilarityBatchRequest.top_k`: declared
`Optional[int] = Field(default=10, ge=1, le=100)`, so an explicit `null`
passes validation and the `ge`/`le` bounds apply only to present integers
(negative and zero values are rejected, so the present case carries a `ℕ`
between 1 and 100). -/
def validTopK : Option ℕ → Prop
  | none => True
  | some k => 1 ≤ k ∧ k ≤ 100

instance validTopKDecidable (k : Option ℕ) : Decidable (validTopK k) := by
  cases k <;> unfold validTopK <;> infer_instance

/-- Constraint on a whole `SimilarityBatchRequest`. -/
def validSimilarityBatch (query : String) (cs : List String)
    (k : Option ℕ) : Prop :=
  validText query ∧ validCandidates cs ∧ validTopK k

instance validSimilarityBatchDecidable (q : String) (cs : List String)
    (k : Option ℕ) : Decidable (validSimilarityBatch q cs k) := by
  unfold validSimilarityBatch; infer_instance

/-! ### The model handle -/

/-- Modelled from the spec: the sentence-transformers model is loaded from an
external library, not from code in this repository. Per the spec's data model
the handle "exposes `encode(text|texts) -> vector|vectors`" and
"`dimension() -> int`", every embedding vector is an "ordered sequence of
floating-point numbers, fixed length = model dimension", and batch encoding
encodes each text in order (1:1, order preserved). -/
structure Model where
  enc : String → List ℝ
  encodeBatch : List String → List (List ℝ)
  dim : ℕ
  enc_dim : ∀ t, (enc t).length = dim
  encodeBatch_eq : ∀ ts, encodeBatch ts = ts.map enc

/-- The default `MODEL_NAME` from the configuration block. -/
def MODEL_NAME : String := "all-MiniLM-L6-v2"

/-! ### Response shapes and endpoint handlers -/

/-- Response of `/health` (`HealthResponse`). -/
structure HealthResponse where
  status : String
  model : String
  model_dimensions : ℕ

/-- Handler of `GET /health` (`health_check`). -/
def health_check (m : Model) : HealthResponse :=
  { status := "ok", model := MODEL_NAME, model_dimensions := m.dim }

/-- Response of `/embed` (`EmbedResponse`). -/
structure EmbedResponse where
  vector : List ℝ
  dimensions : ℕ
  model : String

/-- Handler of `POST /embed` (`embed_text`): encode the text, report the
vector, its length, and the model name. -/
def embed_text (m : Model) (text : String) : EmbedResponse :=
  let vector := m.enc text
  { vector := vector, dimensions := vector.length, model := MODEL_NAME }

/-- The `/embed` route including FastAPI validation: pydantic rejects an
invalid `text` with HTTP 422 before the handler (and hence the model) runs. -/
def embedRoute (m : Model) (text : String) : Except ℕ EmbedResponse :=
  if validText text then .ok (embed_text m text) else .error 422

/-- Response of `/embed/batch` (`EmbedBatchResponse`). -/
structure EmbedBatchResponse where
  vectors : List (List ℝ)
  count : ℕ
  dimensions : ℕ
  model : String

/-- Handler of `POST /embed/batch` (`embed_batch`): encode all texts;
`dimensions` is `len(vectors[0]) if vectors else 0`. -/
def embed_batch (m : Model) (texts : List String) : EmbedBatchResponse :=
  let vectors := m.encodeBatch texts
  { vectors := vectors
    count := vectors.length
    dimensions := match vectors with
      | [] => 0
      | v :: _ => v.length
    model := MODEL_NAME }

/-- The `/embed/batch` route including FastAPI validation. -/
def embedBatchRoute (m : Model) (texts : List String) :
    Except ℕ EmbedBatchResponse :=
  if validBatchTexts texts then .ok (embed_batch m texts) else .error 422

/-- Response of `/similarity` (`SimilarityResponse`). -/
structure SimilarityResponse where
  score : ℝ
  text1 : String
  text2 : String

/-- Handler of `POST /similarity` (`calculate_similarity`): batch-encode the
two texts, take the sklearn cosine similarity of the two rows, echo the
inputs. -/
noncomputable def calculate_similarity (m : Model) (text1 text2 : String) :
    SimilarityResponse :=
  let embeddings := m.encodeBatch [text1, text2]
  { score := cosineSim (embeddings.getD 0 []) (embeddings.getD 1 [])
    text1 := text1
    text2 := text2 }

/-- One entry of the `/similarity/batch` results list: the candidate text,
its score, and its original index. -/
structure RankResult where
  text : String
  score : ℝ
  index : ℕ

instance : Inhabited RankResult := ⟨⟨"", 0, 0⟩⟩

/-- Response of `/similarity/batch` (`SimilarityBatchResponse`). -/
structure SimilarityBatchResponse where
  query : String
  results : List RankResult

/-- The similarity row `cosine_similarity([query_embedding],
candidate_embeddings)[0]` of `find_similar`: one score per candidate. -/
noncomputable def simScores (m : Model) (query : String)
    (candidates : List String) : List ℝ :=
  (m.encodeBatch candidates).map
    (fun c => cosineSim ((m.encodeBatch [query]).getD 0 []) c)

/-- Handler of `POST /similarity/batch` (`find_similar`): rank all candidates
by similarity to the query via `np.argsort(similarities)[::-1][:top_k]` and
return `(text, score, index)` entries for the selected indices. -/
noncomputable def find_similar (m : Model) (query : String)
    (candidates : List String) (top_k : Option ℕ) : SimilarityBatchResponse :=
  let similarities := simScores m query candidates
  let indices := rankedIdx similarities top_k
  { query := query
    results := indices.map fun i =>
      { text := candidates.getD i ""
        score := similarities.getD i default
        index := i } }

/-- The `/similarity/batch` route including FastAPI validation. -/
noncomputable def similarityBatchRoute (m : Model) (query : String)
    (candidates : List String) (top_k : Option ℕ) :
    Except ℕ SimilarityBatchResponse :=
  if validSimilarityBatch query candidates top_k then
    .ok (find_similar m query candidates top_k)
  else .error 422

/-! ### General helper lemmas about the handlers -/

theorem calculate_similarity_score (m : Model) (t1 t2 : String) :
    (calculate_similarity m t1 t2).score = cosineSim (m.enc t1) (m.enc t2) := by
  unfold calculate_similarity
  rw [m.encodeBatch_eq]
  rfl

theorem find_similar_results (m : Model) (q : String) (cs : List String)
    (k : Option ℕ) :
    (find_similar m q cs k).results =
      (rankedIdx (simScores m q cs) k).map fun i =>
        ⟨cs.getD i "", (simScores m q cs).getD i default, i⟩ := rfl

theorem simScores_length (m : Model) (q : String) (cs : List String) :
    (simScores m q cs).length = cs.length := by
  simp [simScores, m.encodeBatch_eq]

theorem l2norm_nil : l2norm ([] : List ℝ) = 0 := by
  simp [l2norm, dotp]

theorem cosineSim_nil_nil : cosineSim ([] : List ℝ) [] = 0 := rfl

/-- A concrete model handle whose encoder maps every text to the empty
vector; used to instantiate the general theorems at concrete inputs. -/
def emptyModel : Model where
  enc := fun _ => []
  encodeBatch := fun ts => ts.map fun _ => []
  dim := 0
  enc_dim := fun _ => rfl
  encodeBatch_eq := fun _ => rfl

/-- A text of exactly 10000 characters. -/
def chars10000 : String := String.mk (List.replicate 10000 'a')

/-- A text of exactly 10001 characters. -/
def chars10001 : String := String.mk (List.replicate 10001 'a')

theorem chars10000_length : chars10000.length = 10000 := by
  rw [chars10000, String.length_mk, List.length_replicate]

theorem chars10001_length : chars10001.length = 10001 := by
  rw [chars10001, String.length_mk, List.length_replicate]

theorem not_validText_chars10001 : ¬ validText chars10001 := by
  rw [validText, chars10001_length]
  norm_num

theorem not_validText_empty : ¬ validText "" := by
  rw [validText]
  norm_num

/-! ### Claim theorems -/

/-- C3: the `/similarity` endpoint echoes `text1` and `text2` unchanged, and
its score is exactly the spec's cosine formula `dot(a,b)/(|a||b|)` on the two
embedding vectors, with score 0 whenever either vector has zero norm. -/
theorem similarity_matches_spec_formula (m : Model) (t1 t2 : String) :
    (calculate_similarity m t1 t2).text1 = t1 ∧
    (calculate_similarity m t1 t2).text2 = t2 ∧
    (calculate_similarity m t1 t2).score =
      cosineSpecFormula (m.enc t1) (m.enc t2) ∧
    ((l2norm (m.enc t1) = 0 ∨ l2norm (m.enc t2) = 0) →
      (calculate_similarity m t1 t2).score = 0) := by
  refine ⟨rfl, rfl, ?_, ?_⟩
  · rw [calculate_similarity_score]
    exact cosineSim_eq_specFormula _ _
  · intro h
    rw [calculate_similarity_score]
    rcases h with h | h
    · exact cosineSim_zero_of_left _ _ h
    · exact cosineSim_zero_of_right _ _ h

/-- Witness for C3 at a concrete input: the empty-vector model has zero-norm
embeddings, and the returned score there is 0. -/
theorem similarity_matches_spec_formula_witness :
    (l2norm (emptyModel.enc "a") = 0 ∨ l2norm (emptyModel.enc "b") = 0) ∧
    (calculate_similarity emptyModel "a" "b").score = 0 := by
  have h : l2norm (emptyModel.enc "a") = 0 ∨ l2norm (emptyModel.enc "b") = 0 :=
    Or.inl l2norm_nil
  exact ⟨h, (similarity_matches_spec_formula emptyModel "a" "b").2.2.2 h⟩

/-- C4: the `/similarity` score is symmetric in the two texts. -/
theorem similarity_symmetric (m : Model) (t1 t2 : String) :
    (calculate_similarity m t1 t2).score =
      (calculate_similarity m t2 t1).score := by
  rw [calculate_similarity_score, calculate_similarity_score]
  exact cosineSim_comm _ _

/-- C5: the batch embedding path on a one-element list agrees with the single
embedding path (exact agreement in this real-valued model). -/
theorem embed_batch_singleton_agrees (m : Model) (t : String) :
    (embed_batch m [t]).vectors.getD 0 [] = (embed_text m t).vector := by
  show (m.encodeBatch [t]).getD 0 [] = m.enc t
  rw [m.encodeBatch_eq]
  rfl

/-- C6: the `dimensions` field of an `/embed` response equals the model's
dimension (the value `/health` reports) and the length of the returned
vector. -/
theorem embed_dimensions_eq_model_dim (m : Model) (t : String) :
    (embed_text m t).dimensions = m.dim ∧
    (embed_text m t).dimensions = (embed_text m t).vector.length ∧
    (health_check m).model_dimensions = m.dim :=
  ⟨m.enc_dim t, rfl, rfl⟩

/-- C7: `/embed` accepts a text of exactly 10000 characters and rejects a
text of 10001 characters, and the empty text, with a 422 validation error
whatever the model does (the handler, hence the model, is never invoked). -/
theorem embed_text_length_validation :
    validText chars10000 ∧
    ¬ validText chars10001 ∧
    ¬ validText "" ∧
    (∀ m : Model, embedRoute m chars10001 = .error 422) ∧
    (∀ m : Model, embedRoute m "" = .error 422) := by
  refine ⟨?_, not_validText_chars10001, not_validText_empty, ?_, ?_⟩
  · rw [validText, chars10000_length]
    norm_num
  · intro m
    rw [embedRoute, if_neg not_validText_chars10001]
  · intro m
    rw [embedRoute, if_neg not_validText_empty]

/-- C8: an `/embed/batch` response has one vector per input text in input
order, `count` equal to the number of vectors (= number of inputs), and a
defensive `dimensions = 0` on the empty vector list, which validation makes
unreachable (minimum batch size is 1). -/
theorem embed_batch_shape (m : Model) (ts : List String) :
    (embed_batch m ts).vectors = ts.map m.enc ∧
    (embed_batch m ts).count = (embed_batch m ts).vectors.length ∧
    (embed_batch m ts).count = ts.length ∧
    (embed_batch m ([] : List String)).dimensions = 0 ∧
    ¬ validBatchTexts ([] : List String) := by
  refine ⟨m.encodeBatch_eq ts, rfl, ?_, ?_, ?_⟩
  · show (m.encodeBatch ts).length = ts.length
    rw [m.encodeBatch_eq, List.length_map]
  · show (match m.encodeBatch ([] : List String) with
      | [] => 0
      | v :: _ => v.length) = 0
    rw [m.encodeBatch_eq]
    rfl
  · rw [validBatchTexts]
    norm_num

/-- C10: the items of `texts` in `/embed/batch` and of `candidates` in
`/similarity/batch` carry no per-item length validation: lists containing the
empty string and a 10001-character string pass validation and reach the
handler, although both items violate the single-text bounds. -/
theorem batch_items_unvalidated :
    ¬ validText "" ∧
    ¬ validText chars10001 ∧
    validBatchTexts ["", chars10001] ∧
    validCandidates ["", chars10001] ∧
    (∀ m : Model, embedBatchRoute m ["", chars10001] =
      .ok (embed_batch m ["", chars10001])) ∧
    (∀ m : Model, similarityBatchRoute m "q" ["", chars10001] (some 10) =
      .ok (find_similar m "q" ["", chars10001] (some 10))) := by
  have hb : validBatchTexts ["", chars10001] := by
    rw [validBatchTexts]
    norm_num
  have hc : validCandidates ["", chars10001] := by
    rw [validCandidates]
    norm_num
  refine ⟨not_validText_empty, not_validText_chars10001, hb, hc, ?_, ?_⟩
  · intro m
    rw [embedBatchRoute, if_pos hb]
  · intro m
    rw [similarityBatchRoute, if_pos ?_]
    have hq : ("q" : String).length = 1 := rfl
    exact ⟨by rw [validText, hq]; norm_num, hc, by rw [validTopK]; norm_num⟩

/-- C2: for a ranking request with `top_k = k`, the results list has length
`min k (len candidates)`, scores are non-increasing from first to last, every
returned index lies in `[0, len candidates)`, and no index repeats. -/
theorem find_similar_top_k_properties (m : Model) (q : String)
    (cs : List String) (k : ℕ) :
    (find_similar m q cs (some k)).results.length = min k cs.length ∧
    ((find_similar m q cs (some k)).results.map fun r => r.score).Pairwise
      (· ≥ ·) ∧
    ((find_similar m q cs (some k)).results.map fun r => r.index) ⊆
      List.range cs.length ∧
    ((find_similar m q cs (some k)).results.map fun r => r.index).Nodup := by
  refine ⟨?_, ?_, ?_, ?_⟩
  · rw [find_similar_results, List.length_map, rankedIdx_length_some,
      simScores_length]
  · rw [find_similar_results, List.map_map, List.pairwise_map]
    apply (rankedIdx_pairwise (simScores m q cs) (some k)).imp
    intro a b h
    show akey (simScores m q cs) b ≤ akey (simScores m q cs) a
    rcases h with h | ⟨h, _⟩
    · exact le_of_lt h
    · exact le_of_eq h
  · rw [find_similar_results, List.map_map]
    intro i hi
    rcases List.mem_map.mp hi with ⟨j, hj, rfl⟩
    show j ∈ List.range cs.length
    have := rankedIdx_mem hj
    rw [simScores_length] at this
    exact List.mem_range.mpr this
  · rw [find_similar_results, List.map_map]
    show ((rankedIdx (simScores m q cs) (some k)).map fun i => i).Nodup
    rw [List.map_id']
    exact rankedIdx_nodup _ _

/-- C9: `top_k` may be an explicit null and then the ranking returns all
candidates, so with 101 candidates the results list is longer than 100. -/
theorem top_k_null_returns_all :
    validTopK none ∧
    (∀ (m : Model) (q : String) (cs : List String),
      (find_similar m q cs none).results.length = cs.length) ∧
    100 < (find_similar emptyModel "q"
      (List.replicate 101 "x") none).results.length := by
  have hlen : ∀ (m : Model) (q : String) (cs : List String),
      (find_similar m q cs none).results.length = cs.length := by
    intro m q cs
    rw [find_similar_results, List.length_map, rankedIdx_length_none,
      simScores_length]
  refine ⟨trivial, hlen, ?_⟩
  rw [hlen, List.length_replicate]
  norm_num

/-! ### Concrete evaluation of the ranking on a two-way tie -/

theorem argsort_pair_zeros : argsort ([0, 0] : List ℝ) = [0, 1] := by
  have h2 : List.range (List.length ([0, 0] : List ℝ)) = [0, 1] := rfl
  rw [argsort, h2]
  simp only [List.insertionSort, List.orderedInsert]
  rw [if_pos (show argsortRel ([0, 0] : List ℝ) 0 1 from
    Or.inr ⟨rfl, by norm_num⟩)]

theorem simScores_empty_pair :
    simScores emptyModel "q" ["a", "b"] = [0, 0] := by
  show [cosineSim [] [], cosineSim [] []] = [0, 0]
  rw [cosineSim_nil_nil]

theorem rankedIdx_empty_pair :
    rankedIdx (simScores emptyModel "q" ["a", "b"]) (some 10) = [1, 0] := by
  rw [simScores_empty_pair, rankedIdx, argsort_pair_zeros]
  rfl

theorem find_similar_empty_pair :
    (find_similar emptyModel "q" ["a", "b"] (some 10)).results =
      [⟨"b", 0, 1⟩, ⟨"a", 0, 0⟩] := by
  rw [find_similar_results, rankedIdx_empty_pair, simScores_empty_pair]
  rfl

/-- C1, counterexample: on two candidates with equal similarity scores the
endpoint returns the larger original index first — the candidate with the
smaller index does not appear before the one with the larger index. -/
theorem find_similar_tie_ascending_fails :
    ((find_similar emptyModel "q" ["a", "b"] (some 10)).results.getD 0
        default).score =
      ((find_similar emptyModel "q" ["a", "b"] (some 10)).results.getD 1
        default).score ∧
    ((find_similar emptyModel "q" ["a", "b"] (some 10)).results.getD 1
        default).index <
      ((find_similar emptyModel "q" ["a", "b"] (some 10)).results.getD 0
        default).index := by
  rw [find_similar_empty_pair]
  exact ⟨rfl, by norm_num⟩

/-- C1 (amended): for a ranking request over a tied two-candidate list the
endpoint returns the candidate with the larger original index first — ties
are not broken by original index ascending. The statement is confined to the
two-candidate regime, where the stable argsort model provably matches
numpy's behavior (see `argsort`); for longer candidate lists numpy's default
sort is documented unstable and fixes no tie order. -/
theorem find_similar_pair_tie_larger_index_first (m : Model) (q : String)
    (c0 c1 : String) (k : Option ℕ)
    (htie : (simScores m q [c0, c1]).getD 0 default =
      (simScores m q [c0, c1]).getD 1 default) :
    (find_similar m q [c0, c1] k).results =
      pySlice k
        [⟨c1, (simScores m q [c0, c1]).getD 1 default, 1⟩,
          ⟨c0, (simScores m q [c0, c1]).getD 0 default, 0⟩] := by
  rw [find_similar_results]
  have hlen : (simScores m q [c0, c1]).length = 2 := by
    rw [simScores_length]
    rfl
  have hsort : argsort (simScores m q [c0, c1]) = [0, 1] :=
    argsort_pair_tie _ hlen htie
  rw [rankedIdx, hsort]
  have hrev : ([0, 1] : List ℕ).reverse = [1, 0] := rfl
  rw [hrev, map_pySlice]
  rfl

/-- Witness for the amended C1 on a concrete two-way tie: both scores are
equal and the results list carries index 1 before index 0. -/
theorem find_similar_pair_tie_larger_index_first_witness :
    (simScores emptyModel "q" ["a", "b"]).getD 0 default =
      (simScores emptyModel "q" ["a", "b"]).getD 1 default ∧
    (find_similar emptyModel "q" ["a", "b"] (some 10)).results =
      pySlice (some 10)
        [⟨"b", (simScores emptyModel "q" ["a", "b"]).getD 1 default, 1⟩,
          ⟨"a", (simScores emptyModel "q" ["a", "b"]).getD 0 default, 0⟩] := by
  have htie : (simScores emptyModel "q" ["a", "b"]).getD 0 default =
      (simScores emptyModel "q" ["a", "b"]).getD 1 default := by
    rw [simScores_empty_pair]
    rfl
  exact ⟨htie,
    find_similar_pair_tie_larger_index_first emptyModel "q" "a" "b"
      (some 10) htie⟩

end WikiGraph
